import Mathlib

/-!
# Verification of the muove video compositor (src/main.js, final revision)

Shallow embedding of the `VideoCompositor` class from `src/main.js`
(the last of the four concatenated revisions, lines 982-1471) and proofs
of the specified properties: the per-pixel chroma-key algorithm, the
layer field setters, source replacement (`setupElement`), the export
progress counter, codec selection with fallback, the draw-rectangle
geometry, resolution changes, and placeholder handling on decode failure.

Machine numbers are idealised: JavaScript floats become `ℝ` where a
square root occurs (the chroma-key distance) and `ℚ` elsewhere; the
byte-buffer pixel channels are carried as reals, the alpha value being
the value the loop writes before byte clamping.
-/

namespace Muove

/-! ## Pixels and the chroma-key engine (src/main.js lines 1325-1361) -/

/-- One RGBA pixel of the frame buffer (`data[i] .. data[i+3]`). -/
structure Pixel where
  r : ℝ
  g : ℝ
  b : ℝ
  a : ℝ

/-- Normalised colour distance of a pixel to the target colour, as in
`Math.sqrt((r-rT)^2 + (g-gT)^2 + (b-bT)^2) / 441.67` (lines 1345-1349). -/
noncomputable def colorDiff (r g b rT gT bT : ℝ) : ℝ :=
  Real.sqrt ((r - rT) ^ 2 + (g - gT) ^ 2 + (b - bT) ^ 2) / (44167 / 100)

/-- The per-pixel body of `applyChromaKey` (lines 1339-1357): alpha is
zeroed below `tolerance`, feathered in the band
`[tolerance, tolerance + 0.05)`, and untouched above it; RGB is never
written. -/
noncomputable def chromaKeyPixel (rT gT bT tolerance : ℝ) (p : Pixel) : Pixel :=
  let diff := colorDiff p.r p.g p.b rT gT bT
  if diff < tolerance then { p with a := 0 }
  else if diff < tolerance + 5 / 100 then
    { p with a := (diff - tolerance) / (5 / 100) * 255 }
  else p

/-- The whole-frame loop of `applyChromaKey`: every pixel of the buffer
is rewritten independently by `chromaKeyPixel`. -/
noncomputable def applyChromaKey (rT gT bT tolerance : ℝ) (frame : List Pixel) : List Pixel :=
  frame.map (chromaKeyPixel rT gT bT tolerance)

theorem chromaKeyPixel_r (rT gT bT t : ℝ) (p : Pixel) :
    (chromaKeyPixel rT gT bT t p).r = p.r := by
  simp only [chromaKeyPixel]
  split_ifs <;> rfl

theorem chromaKeyPixel_g (rT gT bT t : ℝ) (p : Pixel) :
    (chromaKeyPixel rT gT bT t p).g = p.g := by
  simp only [chromaKeyPixel]
  split_ifs <;> rfl

theorem chromaKeyPixel_b (rT gT bT t : ℝ) (p : Pixel) :
    (chromaKeyPixel rT gT bT t p).b = p.b := by
  simp only [chromaKeyPixel]
  split_ifs <;> rfl

theorem chromaKeyPixel_a_low (rT gT bT t : ℝ) (p : Pixel)
    (h : colorDiff p.r p.g p.b rT gT bT < t) :
    (chromaKeyPixel rT gT bT t p).a = 0 := by
  simp only [chromaKeyPixel]
  rw [if_pos h]

theorem chromaKeyPixel_a_band (rT gT bT t : ℝ) (p : Pixel)
    (h1 : t ≤ colorDiff p.r p.g p.b rT gT bT)
    (h2 : colorDiff p.r p.g p.b rT gT bT < t + 5 / 100) :
    (chromaKeyPixel rT gT bT t p).a =
      (colorDiff p.r p.g p.b rT gT bT - t) / (5 / 100) * 255 := by
  simp only [chromaKeyPixel]
  rw [if_neg (not_lt.mpr h1), if_pos h2]

theorem chromaKeyPixel_high (rT gT bT t : ℝ) (p : Pixel)
    (h : t + 5 / 100 ≤ colorDiff p.r p.g p.b rT gT bT) :
    chromaKeyPixel rT gT bT t p = p := by
  have h1 : ¬ colorDiff p.r p.g p.b rT gT bT < t := by
    intro hlt
    nlinarith [Real.sqrt_nonneg ((p.r - rT) ^ 2 + (p.g - gT) ^ 2 + (p.b - bT) ^ 2),
      div_nonneg (Real.sqrt_nonneg ((p.r - rT) ^ 2 + (p.g - gT) ^ 2 + (p.b - bT) ^ 2))
        (by norm_num : (0:ℝ) ≤ 44167 / 100)]
  simp only [chromaKeyPixel]
  rw [if_neg h1, if_neg (not_lt.mpr h)]

/-- C1: For every pixel (r,g,b,a), target colour and tolerance, the
chroma-key engine keeps the RGB channels and sets alpha to 0 when
`diff < tolerance`, to `((diff - tolerance)/0.05) * 255` when
`tolerance ≤ diff < tolerance + 0.05`, and leaves the whole pixel
(alpha included) unchanged when `tolerance + 0.05 ≤ diff`, where
`diff = sqrt((r-rT)² + (g-gT)² + (b-bT)²) / 441.67`. -/
theorem chromaKey_pixel_spec (rT gT bT t : ℝ) (p : Pixel) :
    (chromaKeyPixel rT gT bT t p).r = p.r ∧
    (chromaKeyPixel rT gT bT t p).g = p.g ∧
    (chromaKeyPixel rT gT bT t p).b = p.b ∧
    (colorDiff p.r p.g p.b rT gT bT < t → (chromaKeyPixel rT gT bT t p).a = 0) ∧
    (t ≤ colorDiff p.r p.g p.b rT gT bT → colorDiff p.r p.g p.b rT gT bT < t + 5 / 100 →
      (chromaKeyPixel rT gT bT t p).a =
        (colorDiff p.r p.g p.b rT gT bT - t) / (5 / 100) * 255) ∧
    (t + 5 / 100 ≤ colorDiff p.r p.g p.b rT gT bT → chromaKeyPixel rT gT bT t p = p) :=
  ⟨chromaKeyPixel_r rT gT bT t p, chromaKeyPixel_g rT gT bT t p,
    chromaKeyPixel_b rT gT bT t p, chromaKeyPixel_a_low rT gT bT t p,
    fun h1 h2 => chromaKeyPixel_a_band rT gT bT t p h1 h2,
    chromaKeyPixel_high rT gT bT t p⟩

/-- Witness for C1: a pure-green pixel keyed against pure green with
tolerance 0.1 has distance 0 and becomes fully transparent, with RGB
preserved. -/
theorem chromaKey_pixel_spec_witness :
    (chromaKeyPixel 0 255 0 (1/10) ⟨0, 255, 0, 77⟩).a = 0 ∧
    (chromaKeyPixel 0 255 0 (1/10) ⟨0, 255, 0, 77⟩).r = 0 := by
  have h := chromaKey_pixel_spec 0 255 0 (1/10) ⟨0, 255, 0, 77⟩
  have hdiff : colorDiff (0:ℝ) 255 0 0 255 0 = 0 := by
    simp [colorDiff]
  exact ⟨h.2.2.2.1 (by rw [hdiff]; norm_num), h.1⟩

/-! ## Layer model (src/main.js lines 989-993) -/

/-- Discriminant stored in `layer.type`: `'video' | 'image' | 'placeholder'`
(`null` is modelled by `Option.none` around it). -/
inductive LayerKind where
  | video : LayerKind
  | image : LayerKind
  | placeholder : LayerKind
deriving DecidableEq, Repr

/-- A drawable source handle (`layer.element`): a `<video>` element
(with `videoWidth`/`videoHeight`/`duration`), an `Image` (with
`width`/`height`), or the plain placeholder object
`{ width, height, isPlaceholder: true, name }` built on decode failure
(line 1183). -/
inductive SourceEl where
  | video : ℚ → ℚ → ℚ → SourceEl          -- videoWidth, videoHeight, duration
  | image : ℚ → ℚ → SourceEl               -- width, height
  | placeholder : ℚ → ℚ → String → SourceEl -- width, height, file name
deriving DecidableEq, Repr

/-- `el.videoWidth || el.width` (lines 1157, 1306): videos expose
`videoWidth`, images and placeholder objects expose `width`. -/
def SourceEl.elW : SourceEl → ℚ
  | .video w _ _ => w
  | .image w _ => w
  | .placeholder w _ _ => w

/-- `el.videoHeight || el.height` (lines 1158, 1307). -/
def SourceEl.elH : SourceEl → ℚ
  | .video _ h _ => h
  | .image _ h => h
  | .placeholder _ h _ => h

/-- `el.duration || 0` (line 1135): only video elements carry a duration. -/
def SourceEl.durationOrZero : SourceEl → ℚ
  | .video _ _ d => d
  | _ => 0

/-- `el.name` (line 1295), defined only on placeholder objects. -/
def SourceEl.nameD : SourceEl → String
  | .placeholder _ _ n => n
  | _ => ""

/-- One entry of `this.layers` (lines 990-992): per-layer state with its
defaults `x=0, y=0, scale=1, opacity=1, chromaKey=false,
chromaColor='#00ff00', tolerance=0.1`, alongside the `element`/`type`
pair and the optional cached `posterFrame` canvas. -/
structure Layer where
  element : Option SourceEl
  type : Option LayerKind
  x : ℚ
  y : ℚ
  scale : ℚ
  opacity : ℚ
  chromaKey : Bool
  chromaColor : String
  tolerance : ℚ
  posterFrame : Option SourceEl
deriving DecidableEq, Repr

/-- The initial value of each of the three layers (line 990). -/
def defaultLayer : Layer :=
  { element := none, type := none, x := 0, y := 0, scale := 1, opacity := 1,
    chromaKey := false, chromaColor := "#00ff00", tolerance := 1/10,
    posterFrame := none }

/-- The three fixed z-ordered layer slots. -/
inductive LayerKey where
  | background : LayerKey
  | character : LayerKey
  | overlay : LayerKey
deriving DecidableEq, Repr

/-! ## Shared-control field setters (src/main.js lines 1032-1049) -/

/-- The four shared numeric controls `posX`/`posY`/`scale`/`opacity`
(line 1032); `id.replace('pos','').toLowerCase()` maps them to the
layer fields `x`/`y`/`scale`/`opacity`. -/
inductive ControlField where
  | posX : ControlField
  | posY : ControlField
  | scale : ControlField
  | opacity : ControlField
deriving DecidableEq, Repr

/-- The shared-control input handler (lines 1033-1037):
`layer[key] = parseFloat(e.target.value)` — the parsed value is stored
verbatim, with no validation of any kind. -/
def setLayerField (l : Layer) (f : ControlField) (v : ℚ) : Layer :=
  match f with
  | .posX => { l with x := v }
  | .posY => { l with y := v }
  | .scale => { l with scale := v }
  | .opacity => { l with opacity := v }

/-- The chroma-tolerance input handler (lines 1047-1049):
`this.layers[...].tolerance = parseFloat(e.target.value)`, again
stored verbatim. -/
def setTolerance (l : Layer) (v : ℚ) : Layer :=
  { l with tolerance := v }

/-! ## Source replacement: `handleUpload`'s `setupElement`
(src/main.js lines 1127-1173) -/

/-- The compositor fields `setupElement` reads besides the layer:
canvas dimensions and the current composition `duration`. -/
structure UploadCtx where
  canvasWidth : ℚ
  canvasHeight : ℚ
  duration : ℚ
deriving DecidableEq, Repr

/-- `setupElement(el, isError)` (lines 1127-1173), restricted to layer
and compositor state (DOM syncing dropped; the 500 ms poster-frame
timeout is a later event and is not part of this synchronous call).
`ty` is the up-front file classification (`video` or `image`,
line 1125). Returns the updated layer and the updated composition
duration. -/
def setupElement (ctx : UploadCtx) (layer : Layer) (layerKey : LayerKey)
    (el : SourceEl) (ty : LayerKind) (isError : Bool) : Layer × ℚ :=
  let l1 : Layer :=
    { layer with element := some el,
                 type := some (if isError then LayerKind.placeholder else ty),
                 x := 0, y := 0, scale := 1 }
  let newDuration : ℚ :=
    if layerKey = LayerKey.background ∧ isError = false then
      max ctx.duration el.durationOrZero
    else ctx.duration
  let l2 : Layer :=
    if layerKey = LayerKey.background ∨ isError = false then
      if el.elH > el.elW ∧ ctx.canvasHeight < ctx.canvasWidth then
        { l1 with scale := ctx.canvasHeight / el.elH }
      else if el.elW > el.elH ∧ ctx.canvasWidth < ctx.canvasHeight then
        { l1 with scale := ctx.canvasWidth / el.elW }
      else l1
    else l1
  (l2, newDuration)

/-- The placeholder object built by the `video.onerror` handler
(line 1183): `{ width: 1280, height: 720, isPlaceholder: true,
name: file.name }`. -/
def videoErrorPlaceholder (fileName : String) : SourceEl :=
  SourceEl.placeholder 1280 720 fileName

/-- The `video.onerror` handler (lines 1180-1186): decode failure is
converted into a placeholder source and fed through `setupElement`
with `isError = true`; no exception escapes. -/
def handleVideoError (ctx : UploadCtx) (layer : Layer) (layerKey : LayerKey)
    (fileName : String) : Layer × ℚ :=
  setupElement ctx layer layerKey (videoErrorPlaceholder fileName) LayerKind.video true

/-! ## Compositor geometry and `drawLayer` (src/main.js lines 1270-1323) -/

/-- An axis-aligned destination rectangle on the output surface. -/
structure Rect where
  x : ℚ
  y : ℚ
  w : ℚ
  h : ℚ
deriving DecidableEq, Repr

def Rect.centerX (r : Rect) : ℚ := r.x + r.w / 2

def Rect.centerY (r : Rect) : ℚ := r.y + r.h / 2

/-- The destination-rectangle computation of `drawLayer`
(lines 1306-1315): `sw = elW*scale`, `sh = elH*scale`,
`dx = width/2 + layer.x - sw/2`, `dy = height/2 + layer.y - sh/2`. -/
def destRect (canvasW canvasH x y scale elW elH : ℚ) : Rect :=
  let sw := elW * scale
  let sh := elH * scale
  { x := canvasW / 2 + x - sw / 2, y := canvasH / 2 + y - sh / 2, w := sw, h := sh }

/-- What one `drawLayer` call does to the output surface. -/
inductive DrawCmd where
  | skip : DrawCmd
  | placeholderBox : Rect → ℚ → String → DrawCmd      -- rect, globalAlpha, label
  | imageDraw : SourceEl → Rect → ℚ → DrawCmd          -- element, rect, globalAlpha
  | keyedDraw : SourceEl → Rect → ℚ → String → ℚ → DrawCmd
      -- element, rect, globalAlpha, chroma colour, tolerance
deriving DecidableEq, Repr

/-- The label drawn for a placeholder (line 1295). -/
def DrawCmd.labelD : DrawCmd → Option String
  | .placeholderBox _ _ s => some s
  | _ => none

/-- `drawLayer(key)` (lines 1270-1323) as a function from the relevant
compositor state to a draw command: skip when `element` is null; the
labelled semi-transparent box for placeholders; otherwise substitute
the poster frame for non-background videos outside export, compute the
destination rectangle and draw, chroma-keyed when enabled. -/
def drawLayer (canvasW canvasH : ℚ) (isExporting : Bool) (key : LayerKey)
    (layer : Layer) : DrawCmd :=
  match layer.element with
  | none => DrawCmd.skip
  | some el0 =>
    if layer.type = some LayerKind.placeholder then
      DrawCmd.placeholderBox
        (destRect canvasW canvasH layer.x layer.y layer.scale el0.elW el0.elH)
        (layer.opacity * (1/2))
        ("Unsupported: " ++ el0.nameD)
    else
      let el :=
        if layer.type = some LayerKind.video ∧ isExporting = false ∧
            key ≠ LayerKey.background ∧ layer.posterFrame.isSome then
          layer.posterFrame.getD el0
        else el0
      let r := destRect canvasW canvasH layer.x layer.y layer.scale el.elW el.elH
      if layer.chromaKey then
        DrawCmd.keyedDraw el r layer.opacity layer.chromaColor layer.tolerance
      else
        DrawCmd.imageDraw el r layer.opacity

/-! ## Resolution change (src/main.js lines 1051-1062) and state -/

/-- The compositor state touched by the resolution handler. -/
structure CompositorState where
  background : Layer
  character : Layer
  overlay : Layer
  resolutionW : ℚ
  resolutionH : ℚ
  canvasW : ℚ
  canvasH : ℚ
deriving DecidableEq, Repr

/-- `resizeCanvas()` (lines 1202-1205): the canvas (Output Surface) is
re-sized — and its contents discarded — to the stored resolution. -/
def resizeCanvas (s : CompositorState) : CompositorState :=
  { s with canvasW := s.resolutionW, canvasH := s.resolutionH }

def resetLayerPos (l : Layer) : Layer := { l with x := 0, y := 0 }

/-- The resolution `change` handler (lines 1052-1062): store the new
resolution, recreate the canvas, then zero every layer's `x`/`y`. -/
def changeResolution (s : CompositorState) (w h : ℚ) : CompositorState :=
  let s1 := { s with resolutionW := w, resolutionH := h }
  let s2 := resizeCanvas s1
  { s2 with background := resetLayerPos s2.background,
            character := resetLayerPos s2.character,
            overlay := resetLayerPos s2.overlay }

/-! ## Export pipeline: codec selection, file naming, progress
(src/main.js lines 1419-1465) -/

/-- The `options.mimeType` / `extension` pair chosen for recording. -/
structure CodecChoice where
  mimeType : String
  fileExt : String
deriving DecidableEq, Repr

/-- Codec negotiation (lines 1419-1427): try
`video/mp4; codecs=avc1.42E01E` first and fall back to
`video/webm; codecs=vp9` exactly when the runtime reports the MP4
combination unsupported. Total: no failure is surfaced. -/
def selectCodec (mp4Supported : Bool) : CodecChoice :=
  if mp4Supported then
    { mimeType := "video/mp4; codecs=avc1.42E01E", fileExt := "mp4" }
  else
    { mimeType := "video/webm; codecs=vp9", fileExt := "webm" }

/-- The download name (line 1437):
`composite_export_<Date.now()>.<extension>`. -/
def exportFileName (nowMs : ℕ) (c : CodecChoice) : String :=
  "composite_export_" ++ toString nowMs ++ "." ++ c.fileExt

/-- JavaScript `x || d` on an optional number: `undefined` and `0` are
falsy and select the default. -/
def jsOr (x : Option ℚ) (d : ℚ) : ℚ :=
  match x with
  | some v => if v = 0 then d else v
  | none => d

/-- The export target duration in milliseconds (line 1452):
`(this.layers.background.element?.duration || 5) * 1000`. -/
def exportTargetMs (bgDuration : Option ℚ) : ℚ :=
  jsOr bgDuration 5 * 1000

/-- JavaScript `Math.round`: round half up. -/
def jsRound (x : ℚ) : ℤ := ⌊x + 1/2⌋

/-- The progress value displayed at the k-th 100 ms tick
(lines 1454-1457): `elapsed` has just been incremented to `100*k`, and
`prog = Math.min(Math.round((elapsed / duration) * 100), 99)`. -/
def exportProgress (targetMs : ℚ) (k : ℕ) : ℤ :=
  min (jsRound ((100 * k : ℚ) / targetMs * 100)) 99

/-- The stop condition tested at the k-th tick (line 1458):
`elapsed >= duration`. -/
def exportStops (targetMs : ℚ) (k : ℕ) : Prop :=
  (100 * k : ℚ) ≥ targetMs

instance (targetMs : ℚ) (k : ℕ) : Decidable (exportStops targetMs k) := by
  unfold exportStops; infer_instance

/-! ## Theorems for the remaining claims -/

/-- C2 counterexample: the setters store out-of-range values verbatim —
scale −1 is stored as-is (neither rejected nor clamped), opacity 3/2
and tolerance 2 land outside [0,1], and the stored −1 scale is consumed
unmodified by the Compositor's `drawLayer`, yielding a
negative-width destination rectangle. -/
theorem setLayerField_no_validation_cex :
    (setLayerField defaultLayer ControlField.scale (-1)).scale = -1 ∧
    ¬ (0 < (setLayerField defaultLayer ControlField.scale (-1)).scale) ∧
    (setLayerField defaultLayer ControlField.opacity (3/2)).opacity = 3/2 ∧
    (setTolerance defaultLayer 2).tolerance = 2 ∧
    drawLayer 1920 1080 false LayerKey.character
      { setLayerField defaultLayer ControlField.scale (-1) with
          element := some (SourceEl.image 100 100), type := some LayerKind.image } =
      DrawCmd.imageDraw (SourceEl.image 100 100)
        { x := 1010, y := 590, w := -100, h := -100 } 1 := by
  refine ⟨rfl, by norm_num [setLayerField, defaultLayer], rfl, rfl, ?_⟩
  norm_num [drawLayer, setLayerField, defaultLayer, destRect, SourceEl.elW, SourceEl.elH]
  intro h
  cases h

/-- C2 amended: the Layer Model setters perform no range validation at
all — every new value, a non-positive scale and out-of-[0,1] opacity or
tolerance included, is stored verbatim in the selected field, and that
stored value is exactly what the Compositor reads. -/
theorem setLayerField_spec (l : Layer) (v : ℚ) :
    (setLayerField l ControlField.scale v).scale = v ∧
    (setLayerField l ControlField.opacity v).opacity = v ∧
    (setLayerField l ControlField.posX v).x = v ∧
    (setLayerField l ControlField.posY v).y = v ∧
    (setTolerance l v).tolerance = v :=
  ⟨rfl, rfl, rfl, rfl, rfl⟩

/-- C3 counterexample: replacing the source of a layer that owns a
poster frame with a portrait 720×1280 image on a landscape 1920×1080
canvas leaves scale = 27/32 (the auto-fit value, not 1) and the old
poster frame still cached (not cleared). -/
theorem setupElement_cex :
    ((setupElement ⟨1920, 1080, 0⟩
        { defaultLayer with posterFrame := some (SourceEl.image 1920 1080) }
        LayerKey.character (SourceEl.image 720 1280) LayerKind.image false).1).scale
      = 27/32 ∧
    ((setupElement ⟨1920, 1080, 0⟩
        { defaultLayer with posterFrame := some (SourceEl.image 1920 1080) }
        LayerKey.character (SourceEl.image 720 1280) LayerKind.image false).1).scale ≠ 1 ∧
    ((setupElement ⟨1920, 1080, 0⟩
        { defaultLayer with posterFrame := some (SourceEl.image 1920 1080) }
        LayerKey.character (SourceEl.image 720 1280) LayerKind.image false).1).posterFrame
      = some (SourceEl.image 1920 1080) := by
  refine ⟨?_, ?_, ?_⟩ <;>
    norm_num [setupElement, defaultLayer, SourceEl.elW, SourceEl.elH]

/-- C3 amended: replacing a layer's source resets positionX/Y to 0,
updates the kind to match the new source (placeholder on decode
failure), leaves opacity and the chroma fields unchanged, and sets
scale to 1 — except that the smart auto-fit then overrides scale to
canvasHeight/naturalHeight for a portrait source on a landscape canvas
and to canvasWidth/naturalWidth for a landscape source on a portrait
canvas; the cached posterFrame is NOT cleared: it survives the
replacement unchanged. -/
theorem setupElement_spec (ctx : UploadCtx) (layer : Layer) (key : LayerKey)
    (el : SourceEl) (ty : LayerKind) (isError : Bool) :
    ((setupElement ctx layer key el ty isError).1).x = 0 ∧
    ((setupElement ctx layer key el ty isError).1).y = 0 ∧
    ((setupElement ctx layer key el ty isError).1).element = some el ∧
    ((setupElement ctx layer key el ty isError).1).type
      = some (if isError then LayerKind.placeholder else ty) ∧
    ((setupElement ctx layer key el ty isError).1).posterFrame = layer.posterFrame ∧
    ((setupElement ctx layer key el ty isError).1).opacity = layer.opacity ∧
    ((setupElement ctx layer key el ty isError).1).chromaKey = layer.chromaKey ∧
    ((setupElement ctx layer key el ty isError).1).tolerance = layer.tolerance ∧
    ((key = LayerKey.background ∨ isError = false) →
      (el.elH > el.elW ∧ ctx.canvasHeight < ctx.canvasWidth →
        ((setupElement ctx layer key el ty isError).1).scale = ctx.canvasHeight / el.elH) ∧
      (¬(el.elH > el.elW ∧ ctx.canvasHeight < ctx.canvasWidth) →
        el.elW > el.elH ∧ ctx.canvasWidth < ctx.canvasHeight →
        ((setupElement ctx layer key el ty isError).1).scale = ctx.canvasWidth / el.elW) ∧
      (¬(el.elH > el.elW ∧ ctx.canvasHeight < ctx.canvasWidth) →
        ¬(el.elW > el.elH ∧ ctx.canvasWidth < ctx.canvasHeight) →
        ((setupElement ctx layer key el ty isError).1).scale = 1)) ∧
    (¬(key = LayerKey.background ∨ isError = false) →
      ((setupElement ctx layer key el ty isError).1).scale = 1) := by
  by_cases hA : key = LayerKey.background ∨ isError = false
  · by_cases h1 : el.elH > el.elW ∧ ctx.canvasHeight < ctx.canvasWidth
    · simp [setupElement, hA, h1]
    · by_cases h2 : el.elW > el.elH ∧ ctx.canvasWidth < ctx.canvasHeight
      · simp [setupElement, hA, h1, h2]
      · simp [setupElement, hA, h1, h2]
  · simp [setupElement, hA]

/-- Witness for the amended C3: uploading a square 100×100 image to the
character layer of a 1920×1080 session triggers no auto-fit branch, so
position is reset to (0,0) and scale to 1. -/
theorem setupElement_spec_witness :
    ((setupElement ⟨1920, 1080, 0⟩ defaultLayer LayerKey.character
        (SourceEl.image 100 100) LayerKind.image false).1).x = 0 ∧
    ((setupElement ⟨1920, 1080, 0⟩ defaultLayer LayerKey.character
        (SourceEl.image 100 100) LayerKind.image false).1).scale = 1 := by
  have h := setupElement_spec ⟨1920, 1080, 0⟩ defaultLayer LayerKey.character
      (SourceEl.image 100 100) LayerKind.image false
  exact ⟨h.1,
    (h.2.2.2.2.2.2.2.2.1 (Or.inr rfl)).2.2
      (by norm_num [SourceEl.elW, SourceEl.elH])
      (by norm_num [SourceEl.elW, SourceEl.elH])⟩

/-- C4: with a non-negative background duration, at every 100 ms tick
`k` the reported progress equals
`min(round(elapsed / targetDuration * 100), 99)` with
`elapsed = 100·k`, the target duration is the background duration (in
ms) when known and the 5-second default otherwise, progress is
non-decreasing in the tick count, and it never reaches 100. -/
theorem exportProgress_spec (bgDur : Option ℚ) (hbg : ∀ d, bgDur = some d → 0 ≤ d)
    (k j : ℕ) (hkj : k ≤ j) :
    exportProgress (exportTargetMs bgDur) k
      = min (jsRound ((100 * k : ℚ) / exportTargetMs bgDur * 100)) 99 ∧
    exportProgress (exportTargetMs bgDur) k ≤ exportProgress (exportTargetMs bgDur) j ∧
    exportProgress (exportTargetMs bgDur) k < 100 ∧
    (bgDur = none → exportTargetMs bgDur = 5 * 1000) ∧
    (∀ d, bgDur = some d → d ≠ 0 → exportTargetMs bgDur = d * 1000) := by
  have hD : 0 < exportTargetMs bgDur := by
    cases bgDur with
    | none => norm_num [exportTargetMs, jsOr]
    | some d =>
      have hd := hbg d rfl
      by_cases h0 : d = 0
      · simp [exportTargetMs, jsOr, h0]
      · have : 0 < d := lt_of_le_of_ne hd (Ne.symm h0)
        simp only [exportTargetMs, jsOr, if_neg h0]
        positivity
  refine ⟨rfl, ?_, ?_, ?_, ?_⟩
  · unfold exportProgress jsRound
    refine min_le_min (Int.floor_le_floor ?_) le_rfl
    have hc : (k : ℚ) ≤ (j : ℚ) := by exact_mod_cast hkj
    gcongr
  · calc exportProgress (exportTargetMs bgDur) k ≤ 99 := min_le_right _ _
      _ < 100 := by norm_num
  · intro h
    subst h
    norm_num [exportTargetMs, jsOr]
  · intro d hd hne
    rw [hd]
    simp [exportTargetMs, jsOr, hne]

/-- Witness for C4: with a known 10-second background duration, the
progress at tick 2 (200 ms) is at most the progress at tick 5 (500 ms)
and stays below 100. -/
theorem exportProgress_spec_witness :
    exportProgress (exportTargetMs (some 10)) 2
      ≤ exportProgress (exportTargetMs (some 10)) 5 ∧
    exportProgress (exportTargetMs (some 10)) 2 < 100 := by
  have h := exportProgress_spec (some 10)
    (fun d hd => by injection hd with h; rw [← h]; norm_num) 2 5 (by norm_num)
  exact ⟨h.2.1, h.2.2.1⟩

/-- C5: codec negotiation tries MP4/H.264 and falls back to WebM/VP9
exactly when MP4 is unsupported; the chosen extension is `mp4` for the
preferred codec and `webm` for the fallback, the MIME type begins with
`video/<extension>`, and the download is named
`composite_export_<epoch-ms>.<extension>`; the selection is total, so
negotiation failure never surfaces as an error. -/
theorem selectCodec_spec (mp4Supported : Bool) (nowMs : ℕ) :
    (selectCodec true).fileExt = "mp4" ∧
    (selectCodec false).fileExt = "webm" ∧
    (selectCodec mp4Supported).fileExt = (if mp4Supported then "mp4" else "webm") ∧
    (∃ rest, (selectCodec mp4Supported).mimeType =
      "video/" ++ (selectCodec mp4Supported).fileExt ++ rest) ∧
    exportFileName nowMs (selectCodec mp4Supported) =
      "composite_export_" ++ toString nowMs ++ "." ++
        (if mp4Supported then "mp4" else "webm") := by
  cases mp4Supported with
  | true => exact ⟨rfl, rfl, rfl, ⟨"; codecs=avc1.42E01E", rfl⟩, rfl⟩
  | false => exact ⟨rfl, rfl, rfl, ⟨"; codecs=vp9", rfl⟩, rfl⟩

/-- C6: for any surface size, any positive scale and any natural source
dimensions, the destination rectangle computed by `drawLayer` for a
layer at position (0,0) is sized naturalDims × scale and centred
exactly at the surface's geometric centre. -/
theorem destRect_centering (canvasW canvasH scale elW elH : ℚ) (_hs : 0 < scale) :
    (destRect canvasW canvasH 0 0 scale elW elH).centerX = canvasW / 2 ∧
    (destRect canvasW canvasH 0 0 scale elW elH).centerY = canvasH / 2 ∧
    (destRect canvasW canvasH 0 0 scale elW elH).w = elW * scale ∧
    (destRect canvasW canvasH 0 0 scale elW elH).h = elH * scale := by
  refine ⟨?_, ?_, rfl, rfl⟩ <;>
    · simp only [destRect, Rect.centerX, Rect.centerY]
      ring

/-- Witness for C6: a 100×50 source at scale 2 on the 1920×1080 surface
is centred at (960, 540). -/
theorem destRect_centering_witness :
    (destRect 1920 1080 0 0 2 100 50).centerX = 960 ∧
    (destRect 1920 1080 0 0 2 100 50).centerY = 540 := by
  have h := destRect_centering 1920 1080 2 100 50 (by norm_num)
  refine ⟨?_, ?_⟩
  · rw [h.1]; norm_num
  · rw [h.2.1]; norm_num

/-- C7: changing the output resolution recreates the canvas at the new
width and height and resets every layer's position to (0,0), leaving
every other field of every layer — scale and opacity included —
unchanged. -/
theorem changeResolution_spec (s : CompositorState) (w h : ℚ) :
    (changeResolution s w h).canvasW = w ∧
    (changeResolution s w h).canvasH = h ∧
    (changeResolution s w h).background = { s.background with x := 0, y := 0 } ∧
    (changeResolution s w h).character = { s.character with x := 0, y := 0 } ∧
    (changeResolution s w h).overlay = { s.overlay with x := 0, y := 0 } ∧
    (changeResolution s w h).background.scale = s.background.scale ∧
    (changeResolution s w h).character.scale = s.character.scale ∧
    (changeResolution s w h).overlay.scale = s.overlay.scale ∧
    (changeResolution s w h).background.opacity = s.background.opacity ∧
    (changeResolution s w h).character.opacity = s.character.opacity ∧
    (changeResolution s w h).overlay.opacity = s.overlay.opacity :=
  ⟨rfl, rfl, rfl, rfl, rfl, rfl, rfl, rfl, rfl, rfl, rfl⟩

/-- C8: inside the feather band the produced alpha is the linear
function `(diff − tolerance) · (255 / 0.05)` of the distance — zero at
`diff = tolerance`, slope 255/0.05 — and it is strictly increasing:
of two in-band pixels, the one further from the target colour gets the
strictly larger alpha. -/
theorem feather_strict_mono (rT gT bT t : ℝ) (p q : Pixel)
    (h0 : t ≤ colorDiff p.r p.g p.b rT gT bT)
    (hlt : colorDiff p.r p.g p.b rT gT bT < colorDiff q.r q.g q.b rT gT bT)
    (hhi : colorDiff q.r q.g q.b rT gT bT < t + 5 / 100) :
    (chromaKeyPixel rT gT bT t p).a =
      (colorDiff p.r p.g p.b rT gT bT - t) * (255 / (5 / 100)) ∧
    (chromaKeyPixel rT gT bT t q).a =
      (colorDiff q.r q.g q.b rT gT bT - t) * (255 / (5 / 100)) ∧
    (chromaKeyPixel rT gT bT t q).a - (chromaKeyPixel rT gT bT t p).a =
      (colorDiff q.r q.g q.b rT gT bT - colorDiff p.r p.g p.b rT gT bT)
        * (255 / (5 / 100)) ∧
    (chromaKeyPixel rT gT bT t p).a < (chromaKeyPixel rT gT bT t q).a := by
  have hp := chromaKeyPixel_a_band rT gT bT t p h0 (lt_trans hlt hhi)
  have hq := chromaKeyPixel_a_band rT gT bT t q (le_trans h0 hlt.le) hhi
  have e : ∀ d : ℝ, (d - t) / (5 / 100) * 255 = (d - t) * (255 / (5 / 100)) := by
    intro d; ring
  rw [hp, hq, e, e]
  refine ⟨rfl, rfl, by ring, ?_⟩
  have h5100 : (255 : ℝ) / (5 / 100) = 5100 := by norm_num
  rw [h5100]
  nlinarith [hlt]

/-- Witness for C8: against target (0,0,0) with tolerance 0.1, the
pixels (50,0,0) and (60,0,0) have distances 5000/44167 and 6000/44167,
both inside the feather band, and the further pixel gets the strictly
larger alpha. -/
theorem feather_strict_mono_witness :
    (chromaKeyPixel 0 0 0 (1/10) ⟨50, 0, 0, 9⟩).a <
      (chromaKeyPixel 0 0 0 (1/10) ⟨60, 0, 0, 9⟩).a := by
  have e1 : colorDiff (50 : ℝ) 0 0 0 0 0 = 5000 / 44167 := by
    unfold colorDiff
    rw [show ((50 : ℝ) - 0) ^ 2 + ((0 : ℝ) - 0) ^ 2 + ((0 : ℝ) - 0) ^ 2 = 50 ^ 2 by ring,
      Real.sqrt_sq (by norm_num : (0 : ℝ) ≤ 50)]
    norm_num
  have e2 : colorDiff (60 : ℝ) 0 0 0 0 0 = 6000 / 44167 := by
    unfold colorDiff
    rw [show ((60 : ℝ) - 0) ^ 2 + ((0 : ℝ) - 0) ^ 2 + ((0 : ℝ) - 0) ^ 2 = 60 ^ 2 by ring,
      Real.sqrt_sq (by norm_num : (0 : ℝ) ≤ 60)]
    norm_num
  have h := feather_strict_mono 0 0 0 (1/10) ⟨50, 0, 0, 9⟩ ⟨60, 0, 0, 9⟩
    (by show (1 : ℝ)/10 ≤ colorDiff 50 0 0 0 0 0
        rw [e1]; norm_num)
    (by show colorDiff (50 : ℝ) 0 0 0 0 0 < colorDiff 60 0 0 0 0 0
        rw [e1, e2]; norm_num)
    (by show colorDiff (60 : ℝ) 0 0 0 0 0 < 1/10 + 5/100
        rw [e2]; norm_num)
  exact h.2.2.2

/-- C9: decode failure of a video yields a Placeholder source that
carries the original file name and a 1280×720 footprint — never an
exception (the handler is a total function into layer state) — the
layer's kind becomes placeholder, and `drawLayer` renders it as a
labelled box (never a skip or an abort). -/
theorem handleVideoError_spec (ctx : UploadCtx) (layer : Layer) (key : LayerKey)
    (fileName : String) (canvasW canvasH : ℚ) (isExporting : Bool) :
    ((handleVideoError ctx layer key fileName).1).type = some LayerKind.placeholder ∧
    ((handleVideoError ctx layer key fileName).1).element
      = some (SourceEl.placeholder 1280 720 fileName) ∧
    (handleVideoError ctx layer key fileName).2 = ctx.duration ∧
    (drawLayer canvasW canvasH isExporting key
        ((handleVideoError ctx layer key fileName).1)).labelD
      = some ("Unsupported: " ++ fileName) ∧
    drawLayer canvasW canvasH isExporting key
        ((handleVideoError ctx layer key fileName).1) ≠ DrawCmd.skip := by
  have hel : ((handleVideoError ctx layer key fileName).1).element
      = some (SourceEl.placeholder 1280 720 fileName) ∧
      ((handleVideoError ctx layer key fileName).1).type
        = some LayerKind.placeholder ∧
      (handleVideoError ctx layer key fileName).2 = ctx.duration := by
    unfold handleVideoError setupElement videoErrorPlaceholder
    split_ifs <;> simp_all
  refine ⟨hel.2.1, hel.1, hel.2.2, ?_, ?_⟩
  · unfold drawLayer
    rw [hel.1]
    simp [hel.2.1, DrawCmd.labelD, SourceEl.nameD]
  · unfold drawLayer
    rw [hel.1]
    simp [hel.2.1]

/-- C10: up to `tolerance + 0.05` the loop writes alpha without reading
the original one — the output alpha is independent of the input
alpha — and consequently a fully transparent pixel whose colour lies in
the feather band (e.g. (50,0,0) against target (0,0,0) at tolerance
0.1) comes out with strictly larger alpha: the engine can make pixels
more opaque than they were. -/
theorem chromaKey_alpha_overwrite :
    (∀ (rT gT bT t r g b a1 a2 : ℝ),
      colorDiff r g b rT gT bT < t + 5 / 100 →
      (chromaKeyPixel rT gT bT t ⟨r, g, b, a1⟩).a =
        (chromaKeyPixel rT gT bT t ⟨r, g, b, a2⟩).a) ∧
    Pixel.a ⟨50, 0, 0, 0⟩ < (chromaKeyPixel 0 0 0 (1/10) ⟨50, 0, 0, 0⟩).a := by
  constructor
  · intro rT gT bT t r g b a1 a2 hband
    by_cases hlo : colorDiff r g b rT gT bT < t
    · rw [chromaKeyPixel_a_low rT gT bT t ⟨r, g, b, a1⟩ hlo,
        chromaKeyPixel_a_low rT gT bT t ⟨r, g, b, a2⟩ hlo]
    · rw [chromaKeyPixel_a_band rT gT bT t ⟨r, g, b, a1⟩ (not_lt.mp hlo) hband,
        chromaKeyPixel_a_band rT gT bT t ⟨r, g, b, a2⟩ (not_lt.mp hlo) hband]
  · have e1 : colorDiff (50 : ℝ) 0 0 0 0 0 = 5000 / 44167 := by
      unfold colorDiff
      rw [show ((50 : ℝ) - 0) ^ 2 + ((0 : ℝ) - 0) ^ 2 + ((0 : ℝ) - 0) ^ 2 = 50 ^ 2 by ring,
        Real.sqrt_sq (by norm_num : (0 : ℝ) ≤ 50)]
      norm_num
    have hband := chromaKeyPixel_a_band 0 0 0 (1/10) ⟨50, 0, 0, 0⟩
      (by show (1 : ℝ)/10 ≤ colorDiff 50 0 0 0 0 0
          rw [e1]; norm_num)
      (by show colorDiff (50 : ℝ) 0 0 0 0 0 < 1/10 + 5/100
          rw [e1]; norm_num)
    rw [hband]
    show (0 : ℝ) < _
    rw [show colorDiff (Pixel.mk 50 0 0 0).r (Pixel.mk 50 0 0 0).g
        (Pixel.mk 50 0 0 0).b 0 0 0 = 5000 / 44167 from e1]
    norm_num

/-- Witness for C10: a pixel of the target colour gets the same output
alpha whether its original alpha was 13 or 200. -/
theorem chromaKey_alpha_overwrite_witness :
    (chromaKeyPixel 0 255 0 (1/10) ⟨0, 255, 0, 13⟩).a =
      (chromaKeyPixel 0 255 0 (1/10) ⟨0, 255, 0, 200⟩).a := by
  refine chromaKey_alpha_overwrite.1 0 255 0 (1/10) 0 255 0 13 200 ?_
  have hz : colorDiff (0 : ℝ) 255 0 0 255 0 = 0 := by
    simp [colorDiff]
  rw [hz]; norm_num

end Muove
